import Mathlib

/-!
Shallow embedding of the PDOK/registrator eureka registry adapter
(package `eureka`, the adapter with ghost reconciliation and the
known-applications cache).

Modelling conventions:
- Go maps are embedded as association lists (`List (κ × α)`) with
  first-key-wins lookup; `insertA` overwrites in place, `removeA` deletes.
- Go pointers to `InstanceInfo` are `Option InstanceInfo` (`none` = nil);
  the zero value of a struct fetched from a map with a missing key is made
  explicit (`zeroRegisteredService`).
- The HTTP layer is an oracle `probe : String → HttpResult × HttpResult`
  giving the outcomes of the first GET and of the single retry GET for a
  URL; a response carries its status code and whether the body read
  (`ioutil.ReadAll`) succeeds.
- Registry RPCs (`RegisterInstance`, `UnregisterInstance`, `SendHeartbeat`)
  are recorded as a list of `RegistryCall` values in call order; their
  results, where the adapter branches on them, are oracle parameters.
- Goroutine channels (`stop`) are modelled by an allocation table of
  channel ids with a closed flag, so that a double `close` is observable
  as a panic.
- The `PLP_HTTPD_SERVICE_NAME` environment variable (with its default
  already applied) is the parameter `plp` of the entry points.
-/

set_option autoImplicit false

namespace Registrator

/-- First-match lookup in an association list, embedding Go map indexing. -/
def lookupA {κ α : Type} [DecidableEq κ] : List (κ × α) → κ → Option α
  | [], _ => none
  | (k2, v) :: rest, k => if k2 = k then some v else lookupA rest k

/-- Insert-or-overwrite in an association list, embedding Go map assignment. -/
def insertA {κ α : Type} [DecidableEq κ] : List (κ × α) → κ → α → List (κ × α)
  | [], k, v => [(k, v)]
  | (k2, v2) :: rest, k, v =>
    if k2 = k then (k, v) :: rest else (k2, v2) :: insertA rest k v

/-- Key removal from an association list, embedding Go `delete`. -/
def removeA {κ α : Type} [DecidableEq κ] : List (κ × α) → κ → List (κ × α)
  | [], _ => []
  | (k2, v2) :: rest, k =>
    if k2 = k then removeA rest k else (k2, v2) :: removeA rest k

/-- Instance metadata (`eureka.MetaData`), a string-to-string map. -/
structure MetaData where
  map : List (String × String)
  deriving DecidableEq, Repr

/-- A registry instance record (`eureka.InstanceInfo`), restricted to the
fields the adapter reads or writes. -/
structure InstanceInfo where
  instanceId : String
  hostName : String
  app : String
  ipAddr : String
  port : Nat
  status : String
  metadata : Option MetaData
  deriving DecidableEq, Repr

/-- A registry application record (`eureka.Application`): a name and its
instances. -/
structure Application where
  name : String
  instances : List InstanceInfo
  deriving DecidableEq, Repr

/-- The container-side service description (`bridge.Service`) fields the
adapter consumes. `attrs` embeds `Service.Attrs`. -/
structure Service where
  id : String
  name : String
  ip : String
  port : Nat
  attrs : List (String × String)
  deriving DecidableEq, Repr

/-- Go map indexing into `Attrs` yields the empty string for a missing key. -/
def getAttr (attrs : List (String × String)) (k : String) : String :=
  match lookupA attrs k with
  | some v => v
  | none => ""

/-- Hostname extraction from `service.ID` via `strings.SplitN(id, ":", 2)[0]`:
the characters before the first colon, or the whole id when there is none. -/
def hostnameOf (id : String) : String :=
  String.mk (id.data.takeWhile (fun c => c ≠ ':'))

/-- Lazy metadata-map creation (`createMetadataMap`). -/
def createMetadataMap (registration : InstanceInfo) : InstanceInfo :=
  match registration.metadata with
  | none => { registration with metadata := some { map := [] } }
  | some _ => registration

/-- Write one metadata key (a Go map assignment through the pointer). -/
def setMeta (registration : InstanceInfo) (k v : String) : InstanceInfo :=
  match registration.metadata with
  | none => registration
  | some m => { registration with metadata := some { map := insertA m.map k v } }

/-- Instance descriptor construction (`instanceInformation`):
`instanceId = hostname:application:port`, host name and IP both set to the
service IP, initial status `UP`, and the `context_path` / `depends_on`
attributes copied into metadata if present and non-empty. -/
def instanceInformation (service : Service) : InstanceInfo :=
  let application := service.name
  let hostname := hostnameOf service.id
  let instanceId := hostname ++ ":" ++ application ++ ":" ++ toString service.port
  let registration : InstanceInfo :=
    { instanceId := instanceId, hostName := service.ip, app := application,
      ipAddr := service.ip, port := service.port, status := "UP", metadata := none }
  let registration :=
    if getAttr service.attrs "context_path" = "" then registration
    else setMeta (createMetadataMap registration) "context-path"
      (getAttr service.attrs "context_path")
  let registration :=
    if getAttr service.attrs "depends_on" = "" then registration
    else setMeta (createMetadataMap registration) "depends_on"
      (getAttr service.attrs "depends_on")
  registration

/-- Embedding of `skipService`: the fixed port 51234 together with the
configured reserved service name (`plp`). -/
def skipService (plp : String) (service : Service) : Bool :=
  service.port == 51234 && service.name == plp

/-- Outcome of one HTTP GET: a transport failure, or a response carrying
its status code and whether reading the body succeeds. -/
structure HttpResponse where
  statusCode : Nat
  bodyReadOk : Bool
  deriving DecidableEq, Repr

/-- Result of one HTTP GET attempt. -/
inductive HttpResult where
  | failure
  | success (resp : HttpResponse)
  deriving DecidableEq, Repr

/-- Embedding of `GetWithRetry`: try the first GET; on a transport error
retry exactly once; `none` when both attempts fail. The oracle `probe`
gives the (first attempt, retry attempt) outcomes per URL. -/
def GetWithRetry (probe : String → HttpResult × HttpResult) (url : String) :
    Option HttpResponse :=
  match (probe url).1 with
  | HttpResult.failure =>
    match (probe url).2 with
    | HttpResult.failure => none
    | HttpResult.success r => some r
  | HttpResult.success r => some r

/-- Embedding of `getCurrentStatus`: `DOWN` when both GET attempts fail,
`DOWN` when the body read fails, otherwise `UP` exactly when the HTTP
status is 200. -/
def getCurrentStatus (probe : String → HttpResult × HttpResult)
    (statusUrl : String) : String :=
  match GetWithRetry probe statusUrl with
  | none => "DOWN"
  | some resp =>
    if resp.bodyReadOk then
      if resp.statusCode == 200 then "UP" else "DOWN"
    else "DOWN"

/-- Scan of the cached application's instances inside `findOldRegistration`:
first instance matching by `instanceId` returns an exact match; otherwise
the first instance matching by IP returns with exactness given by port
equality; later instances are not consulted. -/
def findInInstances : List InstanceInfo → InstanceInfo → Option InstanceInfo × Bool
  | [], _ => (none, false)
  | inst :: rest, registration =>
    if inst.instanceId == registration.instanceId then (some inst, true)
    else if inst.ipAddr == registration.ipAddr then
      (some inst, inst.port == registration.port)
    else findInInstances rest registration

/-- Embedding of `findOldRegistration`: look up the cached application
record for the new registration's application name and scan its instances. -/
def findOldRegistration (knownApplications : List (String × Application))
    (registration : InstanceInfo) : Option InstanceInfo × Bool :=
  match lookupA knownApplications registration.app with
  | some application => findInInstances application.instances registration
  | none => (none, false)

/-- A registry RPC issued by the adapter, with its Go-pointer argument
(`none` embeds a nil `*eureka.InstanceInfo`). -/
inductive RegistryCall where
  | registerInstance (inst : Option InstanceInfo)
  | unregisterInstance (inst : Option InstanceInfo)
  | sendHeartbeat (inst : Option InstanceInfo)
  deriving DecidableEq, Repr

/-- Embedding of `RegisteredService`: the ticker is recorded as presence
plus its period in seconds, the stop channel as an allocated channel id. -/
structure RegisteredService where
  hasTicker : Bool
  tickInterval : Int
  statusUrl : String
  registration : Option InstanceInfo
  stop : Option Nat
  deriving DecidableEq, Repr

/-- The Go zero value produced by indexing `registeredServices` with a
missing key: nil ticker, nil registration pointer, nil stop channel. -/
def zeroRegisteredService : RegisteredService :=
  { hasTicker := false, tickInterval := 0, statusUrl := "",
    registration := none, stop := none }

/-- Embedding of `EurekaAdapter` state, plus the channel allocation table
used to make `close` on an already-closed stop channel observable. -/
structure EurekaAdapter where
  registeredServices : List (String × RegisteredService)
  knownApplications : List (String × Application)
  channels : List (Nat × Bool)
  nextChan : Nat
  deriving DecidableEq, Repr

/-- Whether an allocated channel is already closed. -/
def chanClosed (channels : List (Nat × Bool)) (ch : Nat) : Bool :=
  match lookupA channels ch with
  | some b => b
  | none => false

/-- Result of one adapter entry point: the new state, the registry RPCs it
issued in order, and whether the Go code would have panicked. -/
structure StepResult where
  state : EurekaAdapter
  calls : List RegistryCall
  panicked : Bool
  deriving DecidableEq, Repr

/-- Embedding of `Deregister`. Skipped services are a no-op. Otherwise the
managed entry is looked up by the freshly computed instance id (missing
keys give the zero value); a non-nil stop channel is closed — a panic
exactly when it was already closed — the entry is deleted and
`UnregisterInstance` is called with the freshly built descriptor. -/
def Deregister (plp : String) (r : EurekaAdapter) (service : Service) :
    StepResult :=
  if skipService plp service then { state := r, calls := [], panicked := false }
  else
    let registration := instanceInformation service
    let registeredService :=
      (lookupA r.registeredServices registration.instanceId).getD zeroRegisteredService
    match registeredService.stop with
    | some ch =>
      if chanClosed r.channels ch then { state := r, calls := [], panicked := true }
      else
        { state := { r with
              channels := insertA r.channels ch true,
              registeredServices := removeA r.registeredServices registration.instanceId },
          calls := [RegistryCall.unregisterInstance (some registration)],
          panicked := false }
    | none =>
      { state := { r with
            registeredServices := removeA r.registeredServices registration.instanceId },
        calls := [RegistryCall.unregisterInstance (some registration)],
        panicked := false }

/-- Result of `Refresh`: the registry RPCs issued and the returned error
(the fallback `RegisterInstance` error, when that call is made). -/
structure RefreshResult where
  calls : List RegistryCall
  error : Option String
  deriving DecidableEq, Repr

/-- Embedding of `Refresh`. Skipped services are a no-op. Otherwise the
managed entry is looked up (missing keys give the zero value, so the
heartbeat may carry a nil registration pointer); `SendHeartbeat` is always
issued, and when it reports failure (`heartbeatOk = false`) exactly one
`RegisterInstance` with the same tracked instance state follows, whose
error (`registerErr` oracle) is returned. -/
def Refresh (plp : String) (heartbeatOk : Bool) (registerErr : Option String)
    (r : EurekaAdapter) (service : Service) : RefreshResult :=
  if skipService plp service then { calls := [], error := none }
  else
    let registration := instanceInformation service
    let registeredService :=
      (lookupA r.registeredServices registration.instanceId).getD zeroRegisteredService
    if heartbeatOk then
      { calls := [RegistryCall.sendHeartbeat registeredService.registration],
        error := none }
    else
      { calls := [RegistryCall.sendHeartbeat registeredService.registration,
                  RegistryCall.registerInstance registeredService.registration],
        error := registerErr }

/-- Embedding of `checkHealth`, the body of one poller tick: read the
recorded status through the registration pointer (`none` embeds the nil
dereference, which cannot occur for poller-managed services), probe the
status URL, and only on a change write the new status back and issue a
`RegisterInstance` re-announcement. -/
def checkHealth (probe : String → HttpResult × HttpResult)
    (rs : RegisteredService) : Option (RegisteredService × List RegistryCall) :=
  match rs.registration with
  | none => none
  | some reg =>
    let currentStatus := reg.status
    let newStatus := getCurrentStatus probe rs.statusUrl
    if currentStatus ≠ newStatus then
      some ({ rs with registration := some { reg with status := newStatus } },
        [RegistryCall.registerInstance (some { reg with status := newStatus })])
    else some (rs, [])

/-- Timed view of the known-applications cache for `Ping`: the cache
contents and the absolute time at which the scheduled one-shot clearing
timer fires. -/
structure TimedCache where
  cache : List (String × Application)
  clearAt : Option Nat
  deriving DecidableEq, Repr

/-- The merge loop of `Ping`: every fetched application overwrites the
cache entry under its name. -/
def pingInsertAll (cache : List (String × Application))
    (apps : List Application) : List (String × Application) :=
  apps.foldl (fun c a => insertA c a.name a) cache

/-- Embedding of a successful `Ping` at absolute time `now`: merge the
fetched applications into the cache and schedule the one-shot clearing
timer for `now + 90` seconds. -/
def Ping (now : Nat) (fetched : List Application) (tc : TimedCache) :
    TimedCache :=
  { cache := pingInsertAll tc.cache fetched, clearAt := some (now + 90) }

/-- The timer goroutine of `Ping` firing: the deletion loop removes every
key, leaving the cache empty. -/
def fireClear (_tc : TimedCache) : TimedCache :=
  { cache := [], clearAt := none }

/-- The cache contents visible at absolute time `t`: once the scheduled
clearing time has been reached the timer has fired and the deletion loop
has emptied the cache. -/
def cacheVisibleAt (tc : TimedCache) (t : Nat) : List (String × Application) :=
  match tc.clearAt with
  | some d => if d ≤ t then (fireClear tc).cache else tc.cache
  | none => tc.cache

/-! ### Supporting lemmas -/

theorem lookupA_removeA_self {κ α : Type} [DecidableEq κ]
    (m : List (κ × α)) (k : κ) : lookupA (removeA m k) k = none := by
  induction m with
  | nil => rfl
  | cons p rest ih =>
    obtain ⟨k2, v2⟩ := p
    by_cases h : k2 = k
    · simp [removeA, h, ih]
    · simp [removeA, h, lookupA, ih]

theorem findInInstances_eq_find (insts : List InstanceInfo) (reg : InstanceInfo) :
    findInInstances insts reg =
      match insts.find?
          (fun i => i.instanceId == reg.instanceId || i.ipAddr == reg.ipAddr) with
      | none => (none, false)
      | some i => (some i, i.instanceId == reg.instanceId || i.port == reg.port) := by
  induction insts with
  | nil => rfl
  | cons inst rest ih =>
    by_cases h1 : inst.instanceId = reg.instanceId
    · simp [findInInstances, List.find?_cons, h1]
    · by_cases h2 : inst.ipAddr = reg.ipAddr
      · simp [findInInstances, List.find?_cons, h1, h2]
      · simp [findInInstances, List.find?_cons, h1, h2, ih]

theorem getCurrentStatus_up_or_down (probe : String → HttpResult × HttpResult)
    (url : String) :
    getCurrentStatus probe url = "UP" ∨ getCurrentStatus probe url = "DOWN" := by
  unfold getCurrentStatus
  cases GetWithRetry probe url with
  | none => simp
  | some resp =>
    by_cases hb : resp.bodyReadOk = true
    · by_cases hs : resp.statusCode = 200
      · simp [hb, hs]
      · simp [hb, hs]
    · simp [hb]

/-! ### Claim theorems -/

/-- C1, counterexample: a cached instance with the same IP address and the
same port as the newly built descriptor, but a different `instanceId`, is
classified as an exact match by `findOldRegistration`, although no cached
instance carries the descriptor's `instanceId`. -/
theorem c1_exact_match_counterexample :
    (findOldRegistration
        [("app", { name := "app", instances :=
            [{ instanceId := "other:app:8080", hostName := "h", app := "app",
               ipAddr := "10.0.0.1", port := 8080, status := "UP", metadata := none }] })]
        (instanceInformation
          { id := "host:abc", name := "app", ip := "10.0.0.1", port := 8080,
            attrs := [] })).2 = true
    ∧ (instanceInformation
        { id := "host:abc", name := "app", ip := "10.0.0.1", port := 8080,
          attrs := [] }).instanceId = "host:app:8080"
    ∧ "other:app:8080" ≠ "host:app:8080" := by
  decide

/-- C1 (amended): `findOldRegistration` classifies against the FIRST cached
instance, in list order, that matches the new descriptor by `instanceId` or
by IP address; the classification is an exact match iff that first matching
instance has the same `instanceId` or has both the same IP address and the
same port. Within a single instance the `instanceId` test precedes the
IP-only test, but a later `instanceId` match does not take precedence over
an earlier IP match. -/
theorem c1_findOldRegistration_first_match_characterization
    (known : List (String × Application)) (reg : InstanceInfo) :
    findOldRegistration known reg =
      match lookupA known reg.app with
      | none => (none, false)
      | some application =>
        match application.instances.find?
            (fun i => i.instanceId == reg.instanceId || i.ipAddr == reg.ipAddr) with
        | none => (none, false)
        | some i => (some i, i.instanceId == reg.instanceId || i.port == reg.port) := by
  unfold findOldRegistration
  cases lookupA known reg.app with
  | none => rfl
  | some application => simp [findInInstances_eq_find]

/-- C5: the status probe is total (returns exactly `UP` or `DOWN`): `DOWN`
when both the first GET and the single retry fail with a transport error,
`DOWN` when the body read fails or the HTTP status is not 200, and `UP`
exactly when a response is obtained whose body read succeeds and whose HTTP
status is exactly 200. -/
theorem c5_status_probe_spec (probe : String → HttpResult × HttpResult)
    (url : String) :
    (getCurrentStatus probe url = "UP" ∨ getCurrentStatus probe url = "DOWN")
    ∧ ((probe url).1 = HttpResult.failure → (probe url).2 = HttpResult.failure →
        getCurrentStatus probe url = "DOWN")
    ∧ (∀ resp, GetWithRetry probe url = some resp → resp.bodyReadOk = false →
        getCurrentStatus probe url = "DOWN")
    ∧ (∀ resp, GetWithRetry probe url = some resp → resp.statusCode ≠ 200 →
        getCurrentStatus probe url = "DOWN")
    ∧ (getCurrentStatus probe url = "UP" ↔
        ∃ resp, GetWithRetry probe url = some resp
          ∧ resp.bodyReadOk = true ∧ resp.statusCode = 200) := by
  refine ⟨getCurrentStatus_up_or_down probe url, ?_, ?_, ?_, ?_⟩
  · intro h1 h2
    unfold getCurrentStatus GetWithRetry
    rw [h1, h2]
  · intro resp hresp hb
    unfold getCurrentStatus
    rw [hresp]
    simp [hb]
  · intro resp hresp hs
    unfold getCurrentStatus
    rw [hresp]
    by_cases hb : resp.bodyReadOk = true
    · simp [hb, hs]
    · simp [hb]
  · unfold getCurrentStatus
    cases hresp : GetWithRetry probe url with
    | none => simp
    | some resp =>
      by_cases hb : resp.bodyReadOk = true
      · by_cases hs : resp.statusCode = 200
        · simp [hb, hs]
        · simp [hb, hs]
      · simp [hb]

/-- C6: for a tracked, non-skipped service, a failed heartbeat is followed
by exactly one `RegisterInstance` call carrying the tracked instance state,
and `Refresh` returns that call's error; a successful heartbeat issues no
further registry call and returns no error. -/
theorem c6_refresh_heartbeat_fallback (plp : String) (hb : Bool)
    (registerErr : Option String) (r : EurekaAdapter) (service : Service)
    (rs : RegisteredService)
    (hskip : skipService plp service = false)
    (htracked : lookupA r.registeredServices
      (instanceInformation service).instanceId = some rs) :
    (hb = false → Refresh plp hb registerErr r service =
      { calls := [RegistryCall.sendHeartbeat rs.registration,
                  RegistryCall.registerInstance rs.registration],
        error := registerErr })
    ∧ (hb = true → Refresh plp hb registerErr r service =
      { calls := [RegistryCall.sendHeartbeat rs.registration], error := none }) := by
  constructor <;> intro h <;> subst h <;> simp [Refresh, hskip, htracked]

/-- C7: one poller tick leaves the recorded status unchanged and issues no
registry call when the probed status equals it, and re-announces (exactly
one `RegisterInstance`, with the updated status) exactly when the probed
status differs. -/
theorem c7_checkHealth_frame (probe : String → HttpResult × HttpResult)
    (rs : RegisteredService) (reg : InstanceInfo)
    (hreg : rs.registration = some reg) :
    (getCurrentStatus probe rs.statusUrl = reg.status →
      checkHealth probe rs = some (rs, []))
    ∧ (getCurrentStatus probe rs.statusUrl ≠ reg.status →
      checkHealth probe rs = some
        ({ rs with
             registration := some { reg with status := getCurrentStatus probe rs.statusUrl } },
         [RegistryCall.registerInstance
            (some { reg with status := getCurrentStatus probe rs.statusUrl })])) := by
  constructor <;> intro h
  · unfold checkHealth
    rw [hreg]
    simp only [h]
    simp [← hreg]
  · unfold checkHealth
    rw [hreg]
    simp [Ne.symm h]

/-- C8: once the 90-second clearing window following a successful `Ping`
has elapsed, the one-shot timer has emptied the entire cache, so no entry
inserted by that `Ping` is visible to ghost reconciliation any more. -/
theorem c8_cache_cleared_after_window (now t : Nat) (fetched : List Application)
    (tc : TimedCache) (reg : InstanceInfo)
    (h : now + 90 ≤ t) :
    cacheVisibleAt (Ping now fetched tc) t = []
    ∧ findOldRegistration (cacheVisibleAt (Ping now fetched tc) t) reg
        = (none, false) := by
  have hv : cacheVisibleAt (Ping now fetched tc) t = [] := by
    simp [cacheVisibleAt, Ping, fireClear, h]
  exact ⟨hv, by rw [hv]; rfl⟩

/-- Supporting lemma for C9: a `Deregister` call that does not panic has
removed the managed-map entry for the service's instance id. -/
theorem deregister_no_panic_removes_entry (plp : String) (r : EurekaAdapter)
    (service : Service)
    (hskip : skipService plp service = false)
    (h1 : (Deregister plp r service).panicked = false) :
    (Deregister plp r service).state.registeredServices
      = removeA r.registeredServices (instanceInformation service).instanceId := by
  unfold Deregister at h1 ⊢
  simp only [hskip, Bool.false_eq_true, if_false] at h1 ⊢
  cases hstop : ((lookupA r.registeredServices
      (instanceInformation service).instanceId).getD zeroRegisteredService).stop with
  | none => simp [hstop]
  | some ch =>
    rw [hstop] at h1
    by_cases hcl : chanClosed r.channels ch = true
    · simp [hcl] at h1
    · simp [hstop, hcl]

/-- C9: `Deregister` is idempotent — after a first non-panicking
`Deregister` removed the managed entry, a second `Deregister` for the same
non-skipped service finds no entry (the zero value has a nil stop channel),
closes nothing, raises no panic, and issues exactly the
`UnregisterInstance` call for the freshly built descriptor. -/
theorem c9_deregister_idempotent (plp : String) (r : EurekaAdapter)
    (service : Service)
    (hskip : skipService plp service = false)
    (h1 : (Deregister plp r service).panicked = false) :
    (Deregister plp (Deregister plp r service).state service).panicked = false
    ∧ (Deregister plp (Deregister plp r service).state service).calls
        = [RegistryCall.unregisterInstance (some (instanceInformation service))] := by
  have hnone : lookupA (Deregister plp r service).state.registeredServices
      (instanceInformation service).instanceId = none := by
    rw [deregister_no_panic_removes_entry plp r service hskip h1,
      lookupA_removeA_self]
  have key : ∀ r1 : EurekaAdapter,
      lookupA r1.registeredServices (instanceInformation service).instanceId = none →
      (Deregister plp r1 service).panicked = false
      ∧ (Deregister plp r1 service).calls
          = [RegistryCall.unregisterInstance (some (instanceInformation service))] := by
    intro r1 hn
    unfold Deregister
    simp [hskip, hn, zeroRegisteredService]
  exact key _ hnone

/-- C10: `Refresh` on a non-skipped service whose instance id has no entry
in the managed map sends the heartbeat with a nil instance pointer — the
zero-valued `RegisteredService` obtained from the map lookup carries a nil
registration, and no guard prevents the call. -/
theorem c10_refresh_unmanaged_nil_heartbeat (plp : String) (hb : Bool)
    (registerErr : Option String) (r : EurekaAdapter) (service : Service)
    (hskip : skipService plp service = false)
    (huntracked : lookupA r.registeredServices
      (instanceInformation service).instanceId = none) :
    (Refresh plp hb registerErr r service).calls.head?
      = some (RegistryCall.sendHeartbeat none) := by
  unfold Refresh
  simp only [hskip, Bool.false_eq_true, if_false]
  cases hb <;> simp [huntracked, zeroRegisteredService]

/-! ### Concrete fixtures for the witness theorems -/

/-- A service with a health-check URL, used by several witnesses. -/
def witService : Service :=
  { id := "host:abc", name := "app", ip := "10.0.0.1", port := 8080,
    attrs := [("check_http", "/health")] }

/-- A cached instance sharing `witService`'s computed instance id. -/
def witExactInstance : InstanceInfo :=
  { instanceId := "host:app:8080", hostName := "h", app := "app",
    ipAddr := "7.7.7.7", port := 1, status := "UP", metadata := none }

/-- A probe oracle answering HTTP 200 with a readable body on any URL. -/
def witProbe : String → HttpResult × HttpResult := fun _ =>
  (HttpResult.success { statusCode := 200, bodyReadOk := true },
   HttpResult.success { statusCode := 200, bodyReadOk := true })

/-- The instance descriptor tracked for `witService`. -/
def witTrackedInstance : InstanceInfo :=
  { instanceId := "host:app:8080", hostName := "10.0.0.1", app := "app",
    ipAddr := "10.0.0.1", port := 8080, status := "UP", metadata := none }

/-- A managed registration tracking `witService`'s instance. -/
def witTrackedRS : RegisteredService :=
  { hasTicker := true, tickInterval := 30, statusUrl := "http://10.0.0.1:8080/health",
    registration := some witTrackedInstance,
    stop := some 0 }

/-- Adapter state tracking `witService` with an open stop channel. -/
def witTrackedState : EurekaAdapter :=
  { registeredServices := [("host:app:8080", witTrackedRS)],
    knownApplications := [], channels := [(0, false)], nextChan := 1 }

/-- Adapter state tracking nothing. -/
def witEmptyState : EurekaAdapter :=
  { registeredServices := [], knownApplications := [], channels := [], nextChan := 0 }

/-- C6, witness: refreshing the tracked `witService` issues the fallback
`RegisterInstance` with the tracked instance state on a failed heartbeat
and nothing further on a successful one. -/
theorem c6_refresh_heartbeat_fallback_witness :
    (false = false → Refresh "yoda-httpd" false (some "boom") witTrackedState witService =
      { calls := [RegistryCall.sendHeartbeat witTrackedRS.registration,
                  RegistryCall.registerInstance witTrackedRS.registration],
        error := some "boom" })
    ∧ (false = true → Refresh "yoda-httpd" false (some "boom") witTrackedState witService =
      { calls := [RegistryCall.sendHeartbeat witTrackedRS.registration], error := none }) :=
  c6_refresh_heartbeat_fallback "yoda-httpd" false (some "boom") witTrackedState
    witService witTrackedRS (by decide) (by decide)

/-- C7, witness: a tick whose probe answers `UP` for an instance already
recorded `UP` leaves the managed registration unchanged and issues no
registry call. -/
theorem c7_checkHealth_frame_witness :
    (getCurrentStatus witProbe witTrackedRS.statusUrl = witTrackedInstance.status →
      checkHealth witProbe witTrackedRS = some (witTrackedRS, []))
    ∧ (getCurrentStatus witProbe witTrackedRS.statusUrl ≠ witTrackedInstance.status →
      checkHealth witProbe witTrackedRS = some
        ({ witTrackedRS with
             registration := some { witTrackedInstance with
               status := getCurrentStatus witProbe witTrackedRS.statusUrl } },
         [RegistryCall.registerInstance
            (some { witTrackedInstance with
              status := getCurrentStatus witProbe witTrackedRS.statusUrl })])) :=
  c7_checkHealth_frame witProbe witTrackedRS witTrackedInstance (by decide)

/-- C8, witness: a `Ping` at time 0 is invisible to reconciliation at time
90. -/
theorem c8_cache_cleared_after_window_witness :
    cacheVisibleAt (Ping 0 [{ name := "app", instances := [witExactInstance] }]
      { cache := [], clearAt := none }) 90 = []
    ∧ findOldRegistration (cacheVisibleAt
        (Ping 0 [{ name := "app", instances := [witExactInstance] }]
          { cache := [], clearAt := none }) 90) witExactInstance = (none, false) :=
  c8_cache_cleared_after_window 0 90 [{ name := "app", instances := [witExactInstance] }]
    { cache := [], clearAt := none } witExactInstance (by decide)

/-- C9, witness: deregistering the tracked `witService` twice panics on
neither call and still issues the `UnregisterInstance` on the second. -/
theorem c9_deregister_idempotent_witness :
    (Deregister "yoda-httpd"
        (Deregister "yoda-httpd" witTrackedState witService).state witService).panicked = false
    ∧ (Deregister "yoda-httpd"
        (Deregister "yoda-httpd" witTrackedState witService).state witService).calls
        = [RegistryCall.unregisterInstance (some (instanceInformation witService))] :=
  c9_deregister_idempotent "yoda-httpd" witTrackedState witService
    (by decide) (by decide)

/-- C10, witness: refreshing `witService` against an empty managed map
sends the heartbeat with a nil instance pointer. -/
theorem c10_refresh_unmanaged_nil_heartbeat_witness :
    (Refresh "yoda-httpd" false none witEmptyState witService).calls.head?
      = some (RegistryCall.sendHeartbeat none) :=
  c10_refresh_unmanaged_nil_heartbeat "yoda-httpd" false none witEmptyState
    witService (by decide) (by decide)

end Registrator
